import Mathlib

/-!
Shallow embedding of the `genotype` library (src/lib.rs, src/mutation.rs,
src/param_set.rs): normalized gene parameters (`RangedParam`), the flat
gene-holder contract (`ParamHolder`), the in-place mutation operator
(`mutate`) and the fixed-arity parameter sets (`ParamSet2d`, `ParamSet3d`).

The Rust gene values are `f64`. The embedding models an `f64` as `Fl`:
either `nan` or a finite value carried as an exact rational. Arithmetic
propagates `nan`; both order comparisons are `false` whenever either side
is `nan`, which is the IEEE behaviour the clamping code in
`AddAssign for &mut RangedParam` depends on. Rounding is idealized away
(exact rational arithmetic); every claim below concerns ordering, clamping
and routing structure, none of which depend on rounding.
-/

namespace Genotype

/-- Model of an `f64` gene value (`type Param = f64` in src/lib.rs): `nan`,
or a finite value carried as an exact rational. Infinities do not arise in
the claims under study and are absorbed into `val`-free reasoning; `nan` is
kept explicit because the clamp code's comparisons are sensitive to it. -/
inductive Fl where
  | nan : Fl
  | val : ℚ → Fl
deriving DecidableEq

/-- IEEE-style addition: `nan` absorbs. -/
def Fl.add : Fl → Fl → Fl
  | Fl.val a, Fl.val b => Fl.val (a + b)
  | _, _ => Fl.nan

/-- IEEE-style subtraction: `nan` absorbs. -/
def Fl.sub : Fl → Fl → Fl
  | Fl.val a, Fl.val b => Fl.val (a - b)
  | _, _ => Fl.nan

/-- IEEE-style multiplication: `nan` absorbs. -/
def Fl.mul : Fl → Fl → Fl
  | Fl.val a, Fl.val b => Fl.val (a * b)
  | _, _ => Fl.nan

/-- IEEE-style strict order: any comparison against `nan` is `false`. -/
def Fl.lt : Fl → Fl → Bool
  | Fl.val a, Fl.val b => decide (a < b)
  | _, _ => false

/-- Membership of a value in the unscaled gene range `[0.0, 1.0]`;
`nan` is not in the range (as in IEEE, where `nan >= 0` is false). -/
def Fl.in01 : Fl → Bool
  | Fl.nan => false
  | Fl.val q => decide (0 ≤ q) && decide (q ≤ 1)

/-- Model of one gene behind the `RangedParam` trait (src/lib.rs): the
state any implementor carries is its raw unscaled value (what `get` /
`get_mut` expose) together with the `(min, max)` pair its `range` method
returns. Heterogeneous concrete gene types are captured by letting the
range be per-gene data. -/
structure RangedParam where
  unscaled : Fl
  lo : Fl
  hi : Fl
deriving DecidableEq

/-- The `range` method: returns `(min, max)` (src/lib.rs `fn range`). -/
def RangedParam.range (g : RangedParam) : Fl × Fl := (g.lo, g.hi)

/-- The `get` method: the raw unscaled value (src/lib.rs `fn get`). -/
def RangedParam.get (g : RangedParam) : Fl := g.unscaled

/-- The `get_scaled` default method (src/lib.rs lines 226-229):
`let (min, max) = self.range(); (max - min) * self.get() + min`. -/
def RangedParam.get_scaled (g : RangedParam) : Fl :=
  let r := g.range
  Fl.add (Fl.mul (Fl.sub r.2 r.1) g.get) r.1

/-- The `AddAssign<Param> for &mut RangedParam` impl (src/lib.rs lines
232-246): read the raw value through `get_mut`, add `rhs`, clamp with two
`if` comparisons (`val < 0.0`, then `val > 1.0`), store the result back
through `get_mut`. Reading and writing through `get_mut` is modelled as
reading and writing the `unscaled` field. -/
def RangedParam.add_assign (g : RangedParam) (rhs : Fl) : RangedParam :=
  let v := Fl.add g.unscaled rhs
  let clamped :=
    if Fl.lt v (Fl.val 0) then Fl.val 0
    else if Fl.lt (Fl.val 1) v then Fl.val 1
    else v
  { g with unscaled := clamped }

/-- The spec's clamp function `clamp(x, 0.0, 1.0)` (spec section 4.1),
written from the spec's words, to be compared with the source's
`add_assign`: the value capped below at 0 and above at 1. A `nan` input
maps to `nan`, matching IEEE clamping of a `nan` input. -/
def clampSpec : Fl → Fl
  | Fl.nan => Fl.nan
  | Fl.val q => Fl.val (max 0 (min 1 q))

/-- The spec's scaling formula `min + (max - min) * v` (spec section 4.1),
written from the spec's words in that operand order, to be compared with
the source's `get_scaled`. -/
def scaledSpec (g : RangedParam) : Fl :=
  Fl.add g.range.1 (Fl.mul (Fl.sub g.range.2 g.range.1) g.get)

/-- Model of the `ParamHolder` trait (src/lib.rs lines 148-157): a
dictionary for a holder type `H`. The Rust `get_param` hands out
`&mut RangedParam`; a mutable reference is purified into its two halves, a
reader `get_param` and a writer `set_param`, related by the usual lens
laws on in-range indices. The laws state exactly what a flat, 0-indexed,
non-aliased view of genes means (spec section 3, addressing invariant);
they are satisfied by the library's own holders (see
`ParamSet3d.holder`, `ParamSet2d.holder`). -/
structure ParamHolder (H : Type) where
  param_count : H → ℕ
  get_param : H → ℕ → RangedParam
  set_param : H → ℕ → RangedParam → H
  get_set : ∀ h i g, i < param_count h → get_param (set_param h i g) i = g
  get_ne : ∀ h i j g, i < param_count h → j < param_count h → i ≠ j →
    get_param (set_param h i g) j = get_param h j
  count_set : ∀ h i g, param_count (set_param h i g) = param_count h

/-- Model of the `MutationGen` trait (src/mutation.rs): a stateful
generator over state type `σ`; `gen(&mut self)` becomes a pure step
returning the produced offset and the successor state. -/
structure MutationGen (σ : Type) where
  gen : σ → Fl × σ

/-- One loop body of `mutate` (src/mutation.rs lines 84-88), iterated
over the remaining index list: fetch the gene at index `i`, draw one
offset from the generator, apply the clamped add, store the gene back. -/
def mutate_iter {H σ : Type} (ph : ParamHolder H) (mg : MutationGen σ) :
    List ℕ → H × σ → H × σ
  | [], p => p
  | i :: rest, p =>
    let r := mg.gen p.2
    mutate_iter ph mg rest
      (ph.set_param p.1 i ((ph.get_param p.1 i).add_assign r.1), r.2)

/-- The `mutate` function (src/mutation.rs lines 81-89): read
`param_count` once from the initial holder, then loop `for i in 0..n`
applying one generated offset to the gene at each index. -/
def mutate {H σ : Type} (ph : ParamHolder H) (mg : MutationGen σ)
    (h : H) (s : σ) : H × σ :=
  let n := ph.param_count h
  mutate_iter ph mg (List.range n) (h, s)

/-- State of a `MutationGen` after `n` invocations of `gen` from state
`s`. -/
def genState {σ : Type} (mg : MutationGen σ) : σ → ℕ → σ
  | s, 0 => s
  | s, n + 1 => genState mg (mg.gen s).2 n

/-- The offset produced by the `i`-th invocation of `gen` (0-based) when
the generator starts in state `s`. -/
def genOut {σ : Type} (mg : MutationGen σ) (s : σ) (i : ℕ) : Fl :=
  (mg.gen (genState mg s i)).1

/-- A constant generator, as in the crate's tests (`ConstGen` in
src/lib.rs): every invocation returns the same offset, no state. -/
def ConstGen (c : Fl) : MutationGen Unit where
  gen := fun _ => (c, ())

/-- The `ParamSet3d` struct (src/param_set.rs): named components
`x`, `y`, `z`, each a gene. -/
structure ParamSet3d where
  x : RangedParam
  y : RangedParam
  z : RangedParam
deriving DecidableEq

/-- The `ParamSet2d` struct (src/param_set.rs): named components
`x`, `y`. -/
structure ParamSet2d where
  x : RangedParam
  y : RangedParam
deriving DecidableEq

/-- The `ParamHolder for ParamSet3d` impl's `param_count` (constant 3,
src/param_set.rs). -/
def ParamSet3d.param_count (_ : ParamSet3d) : ℕ := 3

/-- The `ParamHolder for ParamSet2d` impl's `param_count` (constant 2,
src/param_set.rs). -/
def ParamSet2d.param_count (_ : ParamSet2d) : ℕ := 2

/-- The `ParamHolder for ParamSet3d` impl's `get_param` (src/param_set.rs
lines 84-91): `match index % 3`, arms 0, 1, 2 select `x`, `y`, `z`; the
remaining arm is the `panic!("out of bounds")` arm, modelled as `none`. -/
def ParamSet3d.get_param (s : ParamSet3d) (index : ℕ) : Option RangedParam :=
  match index % 3 with
  | 0 => some s.x
  | 1 => some s.y
  | 2 => some s.z
  | _ => none

/-- The `ParamHolder for ParamSet2d` impl's `get_param` (src/param_set.rs
lines 99-105): `match index % 2`, arms 0, 1 select `x`, `y`; the remaining
arm is the `panic!("out of bounds")` arm, modelled as `none`. -/
def ParamSet2d.get_param (s : ParamSet2d) (index : ℕ) : Option RangedParam :=
  match index % 2 with
  | 0 => some s.x
  | 1 => some s.y
  | _ => none

/-- Write-half of the `&mut RangedParam` handed out by
`ParamSet3d::get_param`: storing back through the reference updates the
field selected by `index % 3`. -/
def ParamSet3d.set_param (s : ParamSet3d) (index : ℕ) (g : RangedParam) :
    ParamSet3d :=
  match index % 3 with
  | 0 => { s with x := g }
  | 1 => { s with y := g }
  | _ => { s with z := g }

/-- Write-half of the `&mut RangedParam` handed out by
`ParamSet2d::get_param`: storing back through the reference updates the
field selected by `index % 2`. -/
def ParamSet2d.set_param (s : ParamSet2d) (index : ℕ) (g : RangedParam) :
    ParamSet2d :=
  match index % 2 with
  | 0 => { s with x := g }
  | _ => { s with y := g }

/-- The `ParamHolder` dictionary for `ParamSet3d` (the `impl ParamHolder
for ParamSet3d` in src/param_set.rs). Its reader is the total collapse of
`ParamSet3d.get_param` (the panic arm is unreachable because
`index % 3 < 3`; see the agreement lemma `ParamSet3d_holder_get`). -/
def ParamSet3d.holder : ParamHolder ParamSet3d where
  param_count := ParamSet3d.param_count
  get_param := fun s i =>
    match i % 3 with
    | 0 => s.x
    | 1 => s.y
    | _ => s.z
  set_param := ParamSet3d.set_param
  get_set := by
    intro h i g hi
    simp only [ParamSet3d.param_count] at hi
    interval_cases i <;> rfl
  get_ne := by
    intro h i j g hi hj hne
    simp only [ParamSet3d.param_count] at hi hj
    interval_cases i <;> interval_cases j <;>
      first
      | rfl
      | exact absurd rfl hne
  count_set := fun _ _ _ => rfl

/-- The `ParamHolder` dictionary for `ParamSet2d` (the `impl ParamHolder
for ParamSet2d` in src/param_set.rs). -/
def ParamSet2d.holder : ParamHolder ParamSet2d where
  param_count := ParamSet2d.param_count
  get_param := fun s i =>
    match i % 2 with
    | 0 => s.x
    | _ => s.y
  set_param := ParamSet2d.set_param
  get_set := by
    intro h i g hi
    simp only [ParamSet2d.param_count] at hi
    interval_cases i <;> rfl
  get_ne := by
    intro h i j g hi hj hne
    simp only [ParamSet2d.param_count] at hi hj
    interval_cases i <;> interval_cases j <;>
      first
      | rfl
      | exact absurd rfl hne
  count_set := fun _ _ _ => rfl

/-- The `ParamSet3d::components_scaled` method (src/param_set.rs lines
115-121): the tuple of the three components' `get_scaled` values; the
source takes `&self` (read-only), so the model is a pure function of the
set. -/
def ParamSet3d.components_scaled (s : ParamSet3d) : Fl × Fl × Fl :=
  (s.x.get_scaled, s.y.get_scaled, s.z.get_scaled)

/-- The `ParamSet2d::components_scaled` method (src/param_set.rs lines
131-133). -/
def ParamSet2d.components_scaled (s : ParamSet2d) : Fl × Fl :=
  (s.x.get_scaled, s.y.get_scaled)

section MutateLemmas

variable {H σ : Type} (ph : ParamHolder H) (mg : MutationGen σ)

/-- Addition on `Fl` is commutative (`nan` absorbs on both sides). -/
theorem Fl.add_comm (a b : Fl) : a.add b = b.add a := by
  cases a <;> cases b <;> simp [Fl.add] <;> ring

/-- The total reader in `ParamSet3d.holder` agrees with the source's
`ParamSet3d.get_param` on every index: the panic arm never fires, so
collapsing it loses nothing. -/
theorem ParamSet3d_holder_get (s : ParamSet3d) (i : ℕ) :
    s.get_param i = some (ParamSet3d.holder.get_param s i) := by
  have h3 : i % 3 < 3 := Nat.mod_lt _ (by omega)
  unfold ParamSet3d.get_param ParamSet3d.holder
  interval_cases h : i % 3 <;> simp [h]

/-- The total reader in `ParamSet2d.holder` agrees with the source's
`ParamSet2d.get_param` on every index. -/
theorem ParamSet2d_holder_get (s : ParamSet2d) (i : ℕ) :
    s.get_param i = some (ParamSet2d.holder.get_param s i) := by
  have h2 : i % 2 < 2 := Nat.mod_lt _ (by omega)
  unfold ParamSet2d.get_param ParamSet2d.holder
  interval_cases h : i % 2 <;> simp [h]

/-- Looping over a concatenation of index lists is looping over each in
turn. -/
theorem mutate_iter_append (l1 l2 : List ℕ) (p : H × σ) :
    mutate_iter ph mg (l1 ++ l2) p
      = mutate_iter ph mg l2 (mutate_iter ph mg l1 p) := by
  induction l1 generalizing p with
  | nil => rfl
  | cons i rest ih => simp [mutate_iter, ih]

/-- The generator component after looping over `l` is the generator
stepped once per processed index: one `gen` call per iteration. -/
theorem mutate_iter_snd (l : List ℕ) (p : H × σ) :
    (mutate_iter ph mg l p).2 = genState mg p.2 l.length := by
  induction l generalizing p with
  | nil => rfl
  | cons i rest ih => simp [mutate_iter, genState, ih]

/-- The loop does not change the holder's gene count. -/
theorem mutate_iter_count (l : List ℕ) (p : H × σ) :
    ph.param_count (mutate_iter ph mg l p).1 = ph.param_count p.1 := by
  induction l generalizing p with
  | nil => rfl
  | cons i rest ih => simp [mutate_iter, ih, ph.count_set]

/-- A gene whose index is written by no loop iteration is unchanged. -/
theorem mutate_iter_untouched (l : List ℕ) (p : H × σ) (j : ℕ)
    (hj : j < ph.param_count p.1)
    (hl : ∀ i ∈ l, i < ph.param_count p.1 ∧ i ≠ j) :
    ph.get_param (mutate_iter ph mg l p).1 j = ph.get_param p.1 j := by
  induction l generalizing p with
  | nil => rfl
  | cons i rest ih =>
    obtain ⟨hi, hij⟩ := hl i (List.mem_cons_self i rest)
    simp only [mutate_iter]
    have hcnt := ph.count_set p.1 i
      ((ph.get_param p.1 i).add_assign (mg.gen p.2).1)
    rw [ih _ (by rw [hcnt]; exact hj)
      (fun k hk => by rw [hcnt]; exact hl k (List.mem_cons_of_mem i hk))]
    exact ph.get_ne p.1 i j _ hi hj hij

/-- After looping over `0, 1, …, n-1` (with `n` within the gene count),
the gene at any index `j < n` is the initial gene at `j` updated once by
the clamped add with the `j`-th generator output: each gene is written in
ascending index order with its own offset. -/
theorem mutate_range_get (n j : ℕ) (h : H) (s : σ)
    (hn : n ≤ ph.param_count h) (hj : j < n) :
    ph.get_param (mutate_iter ph mg (List.range n) (h, s)).1 j
      = (ph.get_param h j).add_assign (genOut mg s j) := by
  induction n with
  | zero => omega
  | succ n ih =>
    rw [List.range_succ, mutate_iter_append]
    have hcnt : ph.param_count (mutate_iter ph mg (List.range n) (h, s)).1
        = ph.param_count h := mutate_iter_count ph mg _ _
    simp only [mutate_iter]
    rcases Nat.lt_succ_iff_lt_or_eq.mp hj with hlt | heq
    · rw [ph.get_ne _ n j _ (by omega) (by omega) (by omega)]
      exact ih (by omega) hlt
    · subst heq
      rw [ph.get_set _ j _ (by omega)]
      have huntouched : ph.get_param
          (mutate_iter ph mg (List.range j) (h, s)).1 j = ph.get_param h j :=
        mutate_iter_untouched ph mg _ _ _
          (show j < ph.param_count h by omega)
          (fun k hk => ⟨show k < ph.param_count h by
              have := List.mem_range.mp hk; omega,
            by have := List.mem_range.mp hk; omega⟩)
      have hst : (mutate_iter ph mg (List.range j) (h, s)).2
          = genState mg s j := by
        rw [mutate_iter_snd]; simp
      rw [huntouched, hst]
      rfl

/-- The generator state returned by `mutate` is the initial state stepped
`param_count` times: `gen` is invoked exactly once per gene. -/
theorem mutate_snd (h : H) (s : σ) :
    (mutate ph mg h s).2 = genState mg s (ph.param_count h) := by
  unfold mutate
  rw [mutate_iter_snd]
  simp

/-- After `mutate`, the gene at any addressable index `j` is the initial
gene updated by the clamped add with the `j`-th generator output. -/
theorem mutate_get (h : H) (s : σ) (j : ℕ) (hj : j < ph.param_count h) :
    ph.get_param (mutate ph mg h s).1 j
      = (ph.get_param h j).add_assign (genOut mg s j) :=
  mutate_range_get ph mg _ j h s (le_refl _) hj

/-- The clamped add of non-`nan` operands lands in `[0, 1]`. -/
theorem add_assign_in01 (g : RangedParam) (d : Fl)
    (hg : g.unscaled ≠ Fl.nan) (hd : d ≠ Fl.nan) :
    ((g.add_assign d).unscaled).in01 = true := by
  cases g with
  | mk u lo hi =>
    cases u with
    | nan => exact absurd rfl hg
    | val a =>
      cases d with
      | nan => exact absurd rfl hd
      | val b =>
        by_cases h1 : a + b < 0
        · simp [RangedParam.add_assign, Fl.add, Fl.lt, Fl.in01, h1]
        · by_cases h2 : 1 < a + b
          · simp [RangedParam.add_assign, Fl.add, Fl.lt, Fl.in01, h1, h2]
          · have h1' := not_lt.mp h1
            have h2' := not_lt.mp h2
            simp [RangedParam.add_assign, Fl.add, Fl.lt, Fl.in01, h1, h2]
            exact ⟨h1', h2'⟩

/-- A gene whose unscaled value is `nan` keeps it after any clamped add:
`nan` absorbs the addition and defeats both comparisons. -/
theorem add_assign_nan (g : RangedParam) (d : Fl)
    (hg : g.unscaled = Fl.nan) : (g.add_assign d).unscaled = Fl.nan := by
  cases g with
  | mk u lo hi =>
    cases u with
    | nan => cases d <;> rfl
    | val a => exact Fl.noConfusion hg

/-- The clamped add with offset `0` fixes any unscaled value already in
`[0, 1]`. -/
theorem add_assign_zero (g : RangedParam)
    (hg : g.unscaled.in01 = true) :
    g.add_assign (Fl.val 0) = g := by
  cases g with
  | mk u lo hi =>
    cases u with
    | nan => simp [Fl.in01] at hg
    | val a =>
      simp only [Fl.in01, Bool.and_eq_true, decide_eq_true_eq] at hg
      simp only [RangedParam.add_assign, Fl.add, Fl.lt, add_zero]
      rw [if_neg (by simp; linarith), if_neg (by simp; linarith)]

end MutateLemmas

/-- C1 (counterexample to the claim as stated): the clamp invariant does
not hold for every sequence of offsets. For a concrete `ParamSet2d` with
both genes at `0.5` and a generator that always emits `nan`, after
`mutate` the gene at index 0 has unscaled value `nan`, which is not in
`[0.0, 1.0]`. -/
theorem C1_cex :
    ((ParamSet2d.holder.get_param
      (mutate ParamSet2d.holder (ConstGen Fl.nan)
        (ParamSet2d.mk (RangedParam.mk (Fl.val (1/2)) (Fl.val 0) (Fl.val 1))
          (RangedParam.mk (Fl.val (1/2)) (Fl.val 0) (Fl.val 1))) ()).1
        0).unscaled) = Fl.nan
    ∧ (((ParamSet2d.holder.get_param
      (mutate ParamSet2d.holder (ConstGen Fl.nan)
        (ParamSet2d.mk (RangedParam.mk (Fl.val (1/2)) (Fl.val 0) (Fl.val 1))
          (RangedParam.mk (Fl.val (1/2)) (Fl.val 0) (Fl.val 1))) ()).1
        0).unscaled).in01) = false := by
  exact ⟨rfl, rfl⟩

/-- C1 (amended): for every holder and every sequence of offsets in which
no produced offset is `nan`, applied to genes whose prior unscaled values
are not `nan`, after `mutate` every addressable gene's unscaled value
lies in `[0.0, 1.0]`. -/
theorem C1_clamp {H σ : Type} (ph : ParamHolder H) (mg : MutationGen σ)
    (h : H) (s : σ)
    (hg : ∀ i, i < ph.param_count h →
      (ph.get_param h i).unscaled ≠ Fl.nan)
    (ho : ∀ i, i < ph.param_count h → genOut mg s i ≠ Fl.nan) :
    ∀ j, j < ph.param_count h →
      ((ph.get_param (mutate ph mg h s).1 j).unscaled).in01 = true := by
  intro j hj
  rw [mutate_get ph mg h s j hj]
  exact add_assign_in01 _ _ (hg j hj) (ho j hj)

/-- Witness for C1: a concrete `ParamSet3d` with all genes at `0.1` and a
constant `0.15` generator; after `mutate` the gene at index 2 is in
`[0, 1]`. -/
theorem C1_clamp_witness :
    ((ParamSet3d.holder.get_param
      (mutate ParamSet3d.holder (ConstGen (Fl.val (3/20)))
        (ParamSet3d.mk
          (RangedParam.mk (Fl.val (1/10)) (Fl.val 0) (Fl.val 10))
          (RangedParam.mk (Fl.val (1/10)) (Fl.val 0) (Fl.val 10))
          (RangedParam.mk (Fl.val (1/10)) (Fl.val 0) (Fl.val 10))) ()).1
        2).unscaled).in01 = true := by
  refine C1_clamp ParamSet3d.holder (ConstGen (Fl.val (3/20))) _ ()
    ?_ ?_ 2 (by decide)
  · intro i hi
    have hi3 : i < 3 := hi
    interval_cases i <;> decide
  · intro i hi
    have hi3 : i < 3 := hi
    interval_cases i <;> decide

/-- C2: for every gene and every offset `d`, the `+=` operator on a
mutable gene reference stores exactly `clamp(get() + d, 0.0, 1.0)` — the
prior unscaled value plus `d`, capped below at `0.0` and above at `1.0`
(with `nan` fixed by the clamp, as by IEEE clamping) — and leaves the
rest of the gene unchanged. -/
theorem C2_clamped_add (g : RangedParam) (d : Fl) :
    g.add_assign d = { g with unscaled := clampSpec (Fl.add g.get d) } := by
  cases g with
  | mk u lo hi =>
    cases u with
    | nan => cases d <;> rfl
    | val a =>
      cases d with
      | nan => rfl
      | val b =>
        have heq : (if (decide ((a : ℚ) + b < 0)) = true then Fl.val 0
            else if (decide ((1 : ℚ) < a + b)) = true then Fl.val 1
            else Fl.val (a + b)) = Fl.val (max 0 (min 1 (a + b))) := by
          split_ifs with h1 h2
          · simp only [decide_eq_true_eq] at h1
            rw [min_eq_right (by linarith : (a + b : ℚ) ≤ 1),
              max_eq_left (by linarith)]
          · simp only [decide_eq_true_eq, not_lt] at h1 h2
            rw [min_eq_left (by linarith), max_eq_right (by norm_num)]
          · simp only [decide_eq_true_eq, not_lt] at h1 h2
            rw [min_eq_right (by linarith), max_eq_right (by linarith)]
        simp only [RangedParam.add_assign, RangedParam.get, Fl.add,
          clampSpec, Fl.lt]
        rw [heq]

/-- C3: for every holder with `n = param_count` genes (read once from the
initial holder — the loop bound of `mutate` is `param_count` of the
pre-mutation state), one call to `mutate` invokes the generator's `gen`
exactly `n` times (the final generator state is the initial state stepped
`n` times), and the gene at each index `j` receives the `j`-th produced
offset, so the genes are visited in ascending index order `0, …, n-1`. -/
theorem C3_generator_calls {H σ : Type} (ph : ParamHolder H)
    (mg : MutationGen σ) (h : H) (s : σ) :
    (mutate ph mg h s).2 = genState mg s (ph.param_count h)
    ∧ ∀ j, j < ph.param_count h →
      ph.get_param (mutate ph mg h s).1 j
        = (ph.get_param h j).add_assign (genOut mg s j) :=
  ⟨mutate_snd ph mg h s, fun j hj => mutate_get ph mg h s j hj⟩

/-- Witness for C3: on a concrete 2-gene holder the gene at index 1 ends
up as its initial value updated by the second generator output. -/
theorem C3_generator_calls_witness :
    ParamSet2d.holder.get_param
      (mutate ParamSet2d.holder (ConstGen (Fl.val (1/4)))
        (ParamSet2d.mk (RangedParam.mk (Fl.val (1/2)) (Fl.val 0) (Fl.val 1))
          (RangedParam.mk (Fl.val (1/5)) (Fl.val 0) (Fl.val 1))) ()).1 1
      = (ParamSet2d.holder.get_param
          (ParamSet2d.mk
            (RangedParam.mk (Fl.val (1/2)) (Fl.val 0) (Fl.val 1))
            (RangedParam.mk (Fl.val (1/5)) (Fl.val 0) (Fl.val 1))) 1
        ).add_assign (genOut (ConstGen (Fl.val (1/4))) () 1) :=
  (C3_generator_calls ParamSet2d.holder (ConstGen (Fl.val (1/4))) _ ()).2
    1 (by decide)

/-- C4: for every gene with range `(min, max)` and unscaled value `v`,
`get_scaled` returns exactly `min + (max - min) * v` (exact equality in
the rational model), and no clamping is applied: when `v > 1` the result
extrapolates above `max`, and when `v < 0` below `min` (for a
non-degenerate range `min < max`). -/
theorem C4_scaling (lo hi v : ℚ) :
    (RangedParam.mk (Fl.val v) (Fl.val lo) (Fl.val hi)).get_scaled
      = Fl.val (lo + (hi - lo) * v)
    ∧ (lo < hi → 1 < v → hi < lo + (hi - lo) * v)
    ∧ (lo < hi → v < 0 → lo + (hi - lo) * v < lo) := by
  refine ⟨?_, ?_, ?_⟩
  · simp only [RangedParam.get_scaled, RangedParam.range, RangedParam.get,
      Fl.sub, Fl.mul, Fl.add, Fl.val.injEq]
    ring
  · intro h1 h2; nlinarith
  · intro h1 h2; nlinarith

/-- Witness for C4: a gene with range `(0, 20)` and out-of-range unscaled
value `2` scales to `40`, above the range maximum. -/
theorem C4_scaling_witness :
    (RangedParam.mk (Fl.val 2) (Fl.val 0) (Fl.val 20)).get_scaled
      = Fl.val 40
    ∧ (20 : ℚ) < 0 + (20 - 0) * 2 := by
  obtain ⟨h1, h2, _⟩ := C4_scaling 0 20 2
  exact ⟨by rw [h1]; norm_num, h2 (by norm_num) (by norm_num)⟩

/-- C5 (counterexample to the claim as stated): indexing the library's
provided holders at `param_count()` does not fail fatally. For concrete
sets, `ParamSet3d::get_param 3` returns the `x` gene (it wraps), and so
does `ParamSet2d::get_param 2`; the panic arm (modelled as `none`) is not
taken. -/
theorem C5_cex :
    (ParamSet3d.mk (RangedParam.mk (Fl.val (1/4)) (Fl.val 0) (Fl.val 1))
      (RangedParam.mk (Fl.val (1/2)) (Fl.val 0) (Fl.val 1))
      (RangedParam.mk (Fl.val (3/4)) (Fl.val 0) (Fl.val 1))).get_param 3
      = some (RangedParam.mk (Fl.val (1/4)) (Fl.val 0) (Fl.val 1))
    ∧ (ParamSet2d.mk (RangedParam.mk (Fl.val (1/4)) (Fl.val 0) (Fl.val 1))
      (RangedParam.mk (Fl.val (1/2)) (Fl.val 0) (Fl.val 1))).get_param 2
      = some (RangedParam.mk (Fl.val (1/4)) (Fl.val 0) (Fl.val 1)) := by
  exact ⟨rfl, rfl⟩

/-- C5 (amended): for the holders provided by the library (`ParamSet2d`,
`ParamSet3d`), calling `get_param` with an index outside
`[0, param_count())` does not fail and does not return a default: the
index wraps modulo the arity, so the call returns the gene at
`index % arity`; in particular `get_param(param_count())` returns the `x`
component. -/
theorem C5_wrap (s3 : ParamSet3d) (s2 : ParamSet2d) (i k : ℕ)
    (hi : s3.param_count ≤ i) (hk : s2.param_count ≤ k) :
    ((s3.get_param i).isSome = true
      ∧ s3.get_param i = s3.get_param (i % 3)
      ∧ s3.get_param s3.param_count = some s3.x)
    ∧ ((s2.get_param k).isSome = true
      ∧ s2.get_param k = s2.get_param (k % 2)
      ∧ s2.get_param s2.param_count = some s2.x) := by
  refine ⟨⟨?_, ?_, ?_⟩, ⟨?_, ?_, ?_⟩⟩
  · rw [ParamSet3d_holder_get]; rfl
  · have h33 : i % 3 % 3 = i % 3 := by omega
    unfold ParamSet3d.get_param
    rw [h33]
  · simp [ParamSet3d.get_param, ParamSet3d.param_count]
  · rw [ParamSet2d_holder_get]; rfl
  · have h22 : k % 2 % 2 = k % 2 := by omega
    unfold ParamSet2d.get_param
    rw [h22]
  · simp [ParamSet2d.get_param, ParamSet2d.param_count]

/-- Witness for C5: concrete out-of-range indices 5 (into a 3d set) and
4 (into a 2d set) wrap to indices 2 and 0. -/
theorem C5_wrap_witness :
    (ParamSet3d.mk (RangedParam.mk (Fl.val 0) (Fl.val 0) (Fl.val 1))
      (RangedParam.mk (Fl.val 0) (Fl.val 0) (Fl.val 1))
      (RangedParam.mk (Fl.val 0) (Fl.val 0) (Fl.val 1))).get_param 5
      = (ParamSet3d.mk (RangedParam.mk (Fl.val 0) (Fl.val 0) (Fl.val 1))
        (RangedParam.mk (Fl.val 0) (Fl.val 0) (Fl.val 1))
        (RangedParam.mk (Fl.val 0) (Fl.val 0) (Fl.val 1))).get_param 2 :=
  (C5_wrap
    (ParamSet3d.mk (RangedParam.mk (Fl.val 0) (Fl.val 0) (Fl.val 1))
      (RangedParam.mk (Fl.val 0) (Fl.val 0) (Fl.val 1))
      (RangedParam.mk (Fl.val 0) (Fl.val 0) (Fl.val 1)))
    (ParamSet2d.mk (RangedParam.mk (Fl.val 0) (Fl.val 0) (Fl.val 1))
      (RangedParam.mk (Fl.val 0) (Fl.val 0) (Fl.val 1)))
    5 4 (by decide) (by decide)).1.2.1

/-- C6: for every index `i`, `ParamSet3d::get_param i` returns the `x`,
`y` or `z` field according to `i % 3`, and `ParamSet2d::get_param i`
returns `x` or `y` according to `i % 2`: indices beyond the arity resolve
to a valid field by wrapping rather than failing. -/
theorem C6_modulo_routing (s3 : ParamSet3d) (s2 : ParamSet2d) (i : ℕ) :
    s3.get_param i
      = some (if i % 3 = 0 then s3.x else if i % 3 = 1 then s3.y else s3.z)
    ∧ s2.get_param i = some (if i % 2 = 0 then s2.x else s2.y) := by
  constructor
  · have h3 : i % 3 < 3 := Nat.mod_lt _ (by omega)
    unfold ParamSet3d.get_param
    interval_cases h : i % 3 <;> simp
  · have h2 : i % 2 < 2 := Nat.mod_lt _ (by omega)
    unfold ParamSet2d.get_param
    interval_cases h : i % 2 <;> simp

/-- C7 (counterexample to the claim as stated): a constant-zero generator
does not leave every holder unchanged. For a concrete `ParamSet2d` whose
`x` gene starts at the out-of-range unscaled value `-1`, `mutate` with a
constant-`0.0` generator clamps it to `0`, changing it. -/
theorem C7_cex :
    ((ParamSet2d.holder.get_param
      (mutate ParamSet2d.holder (ConstGen (Fl.val 0))
        (ParamSet2d.mk
          (RangedParam.mk (Fl.val (-1)) (Fl.val 0) (Fl.val 1))
          (RangedParam.mk (Fl.val (1/2)) (Fl.val 0) (Fl.val 1))) ()).1
        0).unscaled) = Fl.val 0
    ∧ ((ParamSet2d.holder.get_param
      (mutate ParamSet2d.holder (ConstGen (Fl.val 0))
        (ParamSet2d.mk
          (RangedParam.mk (Fl.val (-1)) (Fl.val 0) (Fl.val 1))
          (RangedParam.mk (Fl.val (1/2)) (Fl.val 0) (Fl.val 1))) ()).1
        0).unscaled) ≠ Fl.val (-1) := by
  have h := mutate_get ParamSet2d.holder (ConstGen (Fl.val 0))
    (ParamSet2d.mk (RangedParam.mk (Fl.val (-1)) (Fl.val 0) (Fl.val 1))
      (RangedParam.mk (Fl.val (1/2)) (Fl.val 0) (Fl.val 1))) () 0 (by decide)
  have hval : ((ParamSet2d.holder.get_param
      (mutate ParamSet2d.holder (ConstGen (Fl.val 0))
        (ParamSet2d.mk
          (RangedParam.mk (Fl.val (-1)) (Fl.val 0) (Fl.val 1))
          (RangedParam.mk (Fl.val (1/2)) (Fl.val 0) (Fl.val 1))) ()).1
        0).unscaled) = Fl.val 0 := by
    rw [h]
    show ((RangedParam.mk (Fl.val (-1)) (Fl.val 0) (Fl.val 1)).add_assign
      (Fl.val 0)).unscaled = Fl.val 0
    simp only [RangedParam.add_assign, Fl.add, Fl.lt]
    rw [if_pos (show (decide ((-1 : ℚ) + 0 < 0)) = true by
      rw [decide_eq_true_eq]; norm_num)]
  refine ⟨hval, ?_⟩
  rw [hval]
  intro hc
  have := Fl.val.inj hc
  norm_num at this

/-- C7 (amended): for every holder all of whose genes' unscaled values
already lie in `[0.0, 1.0]`, calling `mutate` with a generator that
always returns `0.0` leaves every gene's unscaled value unchanged. -/
theorem C7_noop {H σ : Type} (ph : ParamHolder H) (mg : MutationGen σ)
    (h : H) (s : σ)
    (hz : ∀ t : σ, (mg.gen t).1 = Fl.val 0)
    (hg : ∀ i, i < ph.param_count h →
      ((ph.get_param h i).unscaled).in01 = true) :
    ∀ j, j < ph.param_count h →
      (ph.get_param (mutate ph mg h s).1 j).unscaled
        = (ph.get_param h j).unscaled := by
  intro j hj
  rw [mutate_get ph mg h s j hj]
  have hzero : genOut mg s j = Fl.val 0 := hz _
  rw [hzero, add_assign_zero _ (hg j hj)]

/-- Witness for C7: a concrete 2d set with in-range genes is unchanged at
index 0 by a constant-zero mutation. -/
theorem C7_noop_witness :
    (ParamSet2d.holder.get_param
      (mutate ParamSet2d.holder (ConstGen (Fl.val 0))
        (ParamSet2d.mk (RangedParam.mk (Fl.val (1/2)) (Fl.val 0) (Fl.val 1))
          (RangedParam.mk (Fl.val 1) (Fl.val 0) (Fl.val 1))) ()).1
      0).unscaled
      = (ParamSet2d.holder.get_param
          (ParamSet2d.mk
            (RangedParam.mk (Fl.val (1/2)) (Fl.val 0) (Fl.val 1))
            (RangedParam.mk (Fl.val 1) (Fl.val 0) (Fl.val 1))) 0).unscaled := by
  refine C7_noop ParamSet2d.holder (ConstGen (Fl.val 0)) _ ()
    ?_ ?_ 0 (by decide)
  · intro t; rfl
  · intro i hi
    have hi2 : i < 2 := hi
    interval_cases i
    · show (Fl.val (1/2)).in01 = true
      simp only [Fl.in01, Bool.and_eq_true, decide_eq_true_eq]
      norm_num
    · show (Fl.val 1).in01 = true
      simp only [Fl.in01, Bool.and_eq_true, decide_eq_true_eq]
      norm_num

/-- C8: `components_scaled` returns exactly the tuple of the components'
scaled values, each equal to the spec's formula `min + (max - min) * v`
(`scaledSpec`); the source method takes the set by shared (immutable)
reference, which the model renders as a pure function of the set, so no
field is mutated. -/
theorem C8_components_scaled (s3 : ParamSet3d) (s2 : ParamSet2d) :
    s3.components_scaled
      = (scaledSpec s3.x, scaledSpec s3.y, scaledSpec s3.z)
    ∧ s2.components_scaled = (scaledSpec s2.x, scaledSpec s2.y) := by
  have key : ∀ g : RangedParam, g.get_scaled = scaledSpec g := by
    intro g
    unfold RangedParam.get_scaled scaledSpec
    exact Fl.add_comm _ _
  exact ⟨by simp [ParamSet3d.components_scaled, key],
    by simp [ParamSet2d.components_scaled, key]⟩

/-- C9: if the current raw value plus the offset is `nan`, the clamped
additive update stores `nan`: both clamp comparisons (`< 0.0` and
`> 1.0`) are false on `nan`, so the `[0, 1]` bound is not restored, the
stored value is outside `[0.0, 1.0]`, and any further clamped update
leaves it `nan` permanently. -/
theorem C9_nan_propagation (g : RangedParam) (d : Fl)
    (h : Fl.add g.unscaled d = Fl.nan) :
    (g.add_assign d).unscaled = Fl.nan
    ∧ Fl.lt (Fl.add g.unscaled d) (Fl.val 0) = false
    ∧ Fl.lt (Fl.val 1) (Fl.add g.unscaled d) = false
    ∧ ((g.add_assign d).unscaled).in01 = false
    ∧ ∀ d2, ((g.add_assign d).add_assign d2).unscaled = Fl.nan := by
  have hu : (g.add_assign d).unscaled = Fl.nan := by
    unfold RangedParam.add_assign
    simp [h, Fl.lt]
  refine ⟨hu, by rw [h]; rfl, by rw [h]; rfl, by rw [hu]; rfl, ?_⟩
  intro d2
  exact add_assign_nan _ d2 hu

/-- Witness for C9: a gene at `0.5` hit by a `nan` offset stores `nan`. -/
theorem C9_nan_propagation_witness :
    ((RangedParam.mk (Fl.val (1/2)) (Fl.val 0) (Fl.val 1)).add_assign
      Fl.nan).unscaled = Fl.nan :=
  (C9_nan_propagation
    (RangedParam.mk (Fl.val (1/2)) (Fl.val 0) (Fl.val 1))
    Fl.nan (by decide)).1

/-- C10: `ParamSet2d::get_param` and `ParamSet3d::get_param` are total
over all indices: because the scrutinee is `index % arity`, the panic arm
of the match is unreachable, so neither function ever fails, for any
index. -/
theorem C10_get_param_total (s3 : ParamSet3d) (s2 : ParamSet2d)
    (i k : ℕ) :
    (s3.get_param i).isSome = true ∧ (s2.get_param k).isSome = true := by
  constructor
  · rw [ParamSet3d_holder_get]; rfl
  · rw [ParamSet2d_holder_get]; rfl

end Genotype
